import Mathlib

/-!
Verification of the RetirementCalc dataset-build scripts.

This file gives a shallow embedding, in Lean 4, of the data-transformation
core of the repository's Python scripts:

* `scripts/generate_full_dataset.py` — the fallback join
  (`generate_comprehensive_dataset`), the BEA response handling
  (`fetch_bea_data`), the RPP lookup builder (`process_rpp_data`) and the
  crosswalk de-duplication;
* `scripts/build_cost_of_living_dataset.py` — `bea_request` / `load_rpp`
  error handling and the join-and-drop stage of `build_lookup`;
* `scripts/csv_to_json.py` — the rounding writer `csv_to_json`;
* `scripts/build_enhanced_dataset.py` — `build_comprehensive_dataset`;
* `scripts/optimize_dataset.py` — `create_state_shards` and the metro test
  of `create_core_dataset`.

Numbers are modelled as exact rationals (`ℚ`); Python strings as `String`
compared through their underlying character lists (Python compares strings
by code point, which is exactly the lexicographic order on `List Char`
used below); nullable CSV cells (`NaN` → `None`) as `Option`.
-/
/-- Model of Python `str.zfill`: left-pad with `'0'` up to width `n`.
The inputs it is applied to in the scripts are plain digit strings, so the
sign-handling branch of `str.zfill` never fires and is not modelled. -/
def zfill (n : Nat) (s : String) : String :=
  if n ≤ s.length then s else String.mk (List.replicate (n - s.length) '0') ++ s

/-- One raw crosswalk row (HUD `ZIP_COUNTY` file): ZIP, county FIPS, state,
CBSA (metro) code — blank cells become `NaN` under `pd.read_csv` and then
`None`, modelled as `Option` — and residential ratio (`RES_RATIO`). -/
structure ZipRow where
  zip : String
  county : String
  state : String
  cbsa : Option String
  ratio : ℚ
deriving DecidableEq, Repr

/-- One entry of `rpp_lookup` as built by `process_rpp_data`: the four RPP
components, each possibly missing because its record was skipped (the
`"(NA)"` sentinel or an unparseable value). -/
structure GeoVal where
  rpp_all : Option ℚ := none
  rpp_housing : Option ℚ := none
  rpp_goods : Option ℚ := none
  rpp_other : Option ℚ := none
deriving DecidableEq, Repr

/-- One entry of the hard-coded `state_estimates` table (all four fields
always present). -/
structure StateEst where
  rpp_all : ℚ
  rpp_housing : ℚ
  rpp_goods : ℚ
  rpp_other : ℚ
deriving DecidableEq, Repr

/-- The hard-coded `state_estimates` dictionary of
`generate_full_dataset.py` (lines 185–237).  `build_enhanced_dataset.py`
(`get_state_estimates`, lines 161–215) carries a byte-identical copy, so
this one definition embeds both. -/
def state_estimates : List (String × StateEst) :=
  [("AL", ⟨86.5, 79.0, 91.0, 89.5⟩),
   ("AK", ⟨125.0, 140.0, 118.0, 120.0⟩),
   ("AZ", ⟨97.0, 98.0, 96.5, 98.0⟩),
   ("AR", ⟨85.0, 77.0, 90.0, 88.0⟩),
   ("CA", ⟨142.0, 189.0, 114.5, 127.5⟩),
   ("CO", ⟨105.0, 115.0, 99.0, 103.0⟩),
   ("CT", ⟨115.0, 135.0, 105.0, 112.0⟩),
   ("DE", ⟨102.0, 108.0, 98.0, 101.5⟩),
   ("FL", ⟨96.0, 96.0, 96.5, 97.0⟩),
   ("GA", ⟨95.5, 95.0, 96.0, 97.0⟩),
   ("HI", ⟨150.0, 195.0, 125.0, 135.0⟩),
   ("ID", ⟨94.0, 92.0, 95.0, 96.0⟩),
   ("IL", ⟨108.0, 120.0, 101.0, 106.0⟩),
   ("IN", ⟨88.5, 83.0, 92.5, 91.5⟩),
   ("IA", ⟨90.0, 85.5, 93.0, 92.5⟩),
   ("KS", ⟨89.0, 84.0, 92.5, 92.0⟩),
   ("KY", ⟨88.0, 82.0, 92.0, 91.0⟩),
   ("LA", ⟨93.5, 91.0, 95.5, 96.0⟩),
   ("ME", ⟨105.5, 113.0, 100.0, 104.5⟩),
   ("MD", ⟨112.0, 130.0, 103.0, 109.0⟩),
   ("MA", ⟨117.5, 141.0, 105.5, 114.5⟩),
   ("MI", ⟨89.5, 85.0, 93.0, 92.0⟩),
   ("MN", ⟨102.0, 109.5, 96.5, 101.0⟩),
   ("MS", ⟨84.0, 75.0, 89.0, 87.0⟩),
   ("MO", ⟨90.5, 86.0, 93.5, 93.0⟩),
   ("MT", ⟨95.0, 93.0, 96.0, 97.0⟩),
   ("NE", ⟨91.0, 87.0, 93.5, 93.5⟩),
   ("NV", ⟨98.0, 100.0, 97.0, 98.5⟩),
   ("NH", ⟨103.0, 110.0, 99.0, 102.0⟩),
   ("NJ", ⟨120.0, 150.0, 107.0, 116.0⟩),
   ("NM", ⟨92.5, 89.0, 94.5, 95.0⟩),
   ("NY", ⟨125.0, 165.0, 109.0, 118.0⟩),
   ("NC", ⟨94.5, 93.0, 95.5, 96.0⟩),
   ("ND", ⟨96.0, 94.0, 97.0, 98.0⟩),
   ("OH", ⟨91.5, 88.0, 94.0, 94.0⟩),
   ("OK", ⟨87.0, 80.0, 91.5, 90.0⟩),
   ("OR", ⟨110.0, 125.0, 102.5, 107.5⟩),
   ("PA", ⟨108.5, 118.0, 102.0, 107.0⟩),
   ("RI", ⟨110.0, 125.0, 102.0, 108.0⟩),
   ("SC", ⟨95.0, 94.0, 95.5, 96.5⟩),
   ("SD", ⟨93.0, 90.0, 95.0, 95.5⟩),
   ("TN", ⟨87.5, 81.0, 92.0, 90.5⟩),
   ("TX", ⟨94.0, 92.0, 95.0, 95.5⟩),
   ("UT", ⟨98.5, 101.0, 97.5, 99.0⟩),
   ("VT", ⟨106.0, 115.0, 101.0, 105.0⟩),
   ("VA", ⟨99.0, 104.5, 95.0, 99.5⟩),
   ("WA", ⟨118.0, 145.0, 106.0, 115.0⟩),
   ("WV", ⟨86.0, 78.0, 91.0, 89.0⟩),
   ("WI", ⟨96.5, 97.0, 96.5, 97.5⟩),
   ("WY", ⟨92.0, 88.0, 94.0, 94.5⟩),
   ("DC", ⟨130.0, 170.0, 110.0, 125.0⟩)]

/-- Which counter the row resolution of `generate_comprehensive_dataset`
increments: `matched_cbsa`, `matched_state` or `estimated`.  The spec calls
these the provenance tags metro-matched / state-matched / estimated. -/
inductive Provenance where
  | metro_matched
  | state_matched
  | estimated
deriving DecidableEq, Repr

/-- One value of the `final_data` dictionary (a resolved ZIP record). -/
structure ResolvedZip where
  rpp_all : ℚ
  rpp_housing : ℚ
  rpp_goods : ℚ
  rpp_other : ℚ
  state : String
  cbsa_code : Option String
deriving DecidableEq, Repr

/-- Python truthiness of the `cbsa_code` value (`None` or a string):
`if cbsa_code and ...` is true exactly for a non-empty string. -/
def cbsa_truthy : Option String → Bool
  | none => false
  | some c => !(c = "")

/-- The metro-tier test and lookup of `generate_comprehensive_dataset`
line 248: `if cbsa_code and cbsa_code in rpp_lookup`. -/
def metro_lookup (geo : List (String × GeoVal)) (cbsa : Option String) :
    Option GeoVal :=
  match cbsa with
  | none => none
  | some c => if c = "" then none else geo.lookup c

/-- Lines 264–272: `final_rpp` is assembled with
`rpp_data.get(field, 100.0)` for each of the four components. -/
def finish_row (row : ZipRow) (g : GeoVal) : ResolvedZip :=
  { rpp_all := g.rpp_all.getD 100
    rpp_housing := g.rpp_housing.getD 100
    rpp_goods := g.rpp_goods.getD 100
    rpp_other := g.rpp_other.getD 100
    state := row.state
    cbsa_code := row.cbsa }

/-- View a hard-coded state estimate as a complete `rpp_data` dictionary. -/
def StateEst.toGeoVal (e : StateEst) : GeoVal :=
  ⟨some e.rpp_all, some e.rpp_housing, some e.rpp_goods, some e.rpp_other⟩

/-- The per-row resolution of `generate_comprehensive_dataset`
(lines 239–274): try the CBSA code in `rpp_lookup`; else try the first two
characters of the zero-filled county FIPS in `rpp_lookup`; else the
hard-coded `state_estimates`; else all four components 100.0.  Returns the
`final_data` record together with the counter incremented. -/
def resolve_zip (geo : List (String × GeoVal)) (row : ZipRow) :
    ResolvedZip × Provenance :=
  match metro_lookup geo row.cbsa with
  | some g => (finish_row row g, Provenance.metro_matched)
  | none =>
    match geo.lookup ((zfill 5 row.county).take 2) with
    | some g => (finish_row row g, Provenance.state_matched)
    | none =>
      match state_estimates.lookup row.state with
      | some e => (finish_row row e.toGeoVal, Provenance.estimated)
      | none => (finish_row row ⟨some 100, some 100, some 100, some 100⟩,
                 Provenance.estimated)

/-- Concrete Austin row from the spec scenario: metro code 12420. -/
def row78701 : ZipRow := ⟨"78701", "48453", "TX", some "12420", 1⟩

/-- Concrete Flint row from the spec scenario: blank metro code. -/
def row48505 : ZipRow := ⟨"48505", "26049", "MI", none, 1⟩

/-- The MI record of the spec scenario's Geo-Lookup Table. -/
def mi_geo_val : GeoVal := ⟨some 89.5, some 85.0, some 93.0, some 92.0⟩

/-- Concrete Puerto Rico row: its state is absent from `state_estimates`. -/
def row00601 : ZipRow := ⟨"00601", "72001", "PR", none, 1⟩

/-! ## Crosswalk de-duplication

`generate_full_dataset.py` lines 172–174 (и identically
`build_cost_of_living_dataset.py` lines 167–169):

    zip_df = zip_df.sort_values(['ZIP', 'RES_RATIO'], ascending=[True, False])
    zip_df = zip_df.groupby('ZIP').first().reset_index()

pandas multi-column `sort_values` always uses `np.lexsort`, which is
stable; a stable sort by (ZIP ascending, ratio descending) is exactly a
sort by the strict total key (ZIP ascending, ratio descending, original
position ascending) on position-tagged rows, which is how it is modelled
here (so the choice of sorting algorithm is immaterial).
`groupby('ZIP').first()` takes, within each ZIP group, the first
*non-null* entry of every column; the one nullable column is `CBSA`. -/
/-- A crosswalk row tagged with its original position. -/
abbrev IRow := Nat × ZipRow

/-- The tagged sort key order: ZIP ascending (Python compares strings by
code point, the lexicographic order on the character lists), residential
ratio descending, original position ascending. -/
def row_le (a b : IRow) : Prop :=
  a.2.zip.data < b.2.zip.data ∨
    (a.2.zip.data = b.2.zip.data ∧
      (b.2.ratio < a.2.ratio ∨ (b.2.ratio = a.2.ratio ∧ a.1 ≤ b.1)))

instance : DecidableRel row_le := fun a b => by
  unfold row_le; infer_instance

instance : IsTotal IRow row_le :=
  ⟨by
    intro a b
    rcases lt_trichotomy a.2.zip.data b.2.zip.data with h | h | h
    · exact Or.inl (Or.inl h)
    · rcases lt_trichotomy b.2.ratio a.2.ratio with h2 | h2 | h2
      · exact Or.inl (Or.inr ⟨h, Or.inl h2⟩)
      · rcases Nat.le_total a.1 b.1 with h3 | h3
        · exact Or.inl (Or.inr ⟨h, Or.inr ⟨h2, h3⟩⟩)
        · exact Or.inr (Or.inr ⟨h.symm, Or.inr ⟨h2.symm, h3⟩⟩)
      · exact Or.inr (Or.inr ⟨h.symm, Or.inl h2⟩)
    · exact Or.inr (Or.inl h)⟩

instance : IsTrans IRow row_le :=
  ⟨by
    intro a b c hab hbc
    rcases hab with h1 | ⟨e1, h1⟩
    · rcases hbc with h2 | ⟨e2, h2⟩
      · exact Or.inl (h1.trans h2)
      · exact Or.inl (lt_of_lt_of_eq h1 e2)
    · rcases hbc with h2 | ⟨e2, h2⟩
      · exact Or.inl (lt_of_eq_of_lt e1 h2)
      · refine Or.inr ⟨e1.trans e2, ?_⟩
        rcases h1 with r1 | ⟨q1, i1⟩
        · rcases h2 with r2 | ⟨q2, i2⟩
          · exact Or.inl (r2.trans r1)
          · exact Or.inl (lt_of_eq_of_lt q2 r1)
        · rcases h2 with r2 | ⟨q2, i2⟩
          · exact Or.inl (lt_of_lt_of_eq r2 q1)
          · exact Or.inr ⟨q2.trans q1, i1.trans i2⟩⟩

/-- The stable multi-column sort of the position-tagged crosswalk rows. -/
def sort_rows (rows : List ZipRow) : List IRow :=
  List.insertionSort row_le rows.enum

/-- The first row of each ZIP group of an (already sorted) row list, in
order of first appearance; `seen` accumulates the ZIP values already
emitted. -/
def first_by_zip (seen : List String) : List IRow → List IRow
  | [] => []
  | a :: as =>
    if a.2.zip ∈ seen then first_by_zip seen as
    else a :: first_by_zip (a.2.zip :: seen) as

/-- The record `groupby('ZIP').first()` produces for the group of `a`:
every non-nullable column comes from the group's first row `a`, while the
nullable `CBSA` column gets the group's first non-null value. -/
def group_first (s : List IRow) (a : IRow) : ZipRow :=
  { a.2 with
    cbsa := ((s.filter (fun b => b.2.zip = a.2.zip)).filterMap
      (fun b => b.2.cbsa)).head? }

/-- The de-duplication step shared by `generate_comprehensive_dataset` and
`build_lookup`: stable-sort by (ZIP, ratio descending), then
`groupby('ZIP').first()`. -/
def dedup_rows (rows : List ZipRow) : List ZipRow :=
  (first_by_zip [] (sort_rows rows)).map (group_first (sort_rows rows))

/-- Two crosswalk rows for ZIP 48505 tying at the maximum ratio; only the
second carries a CBSA code. -/
def rows_48505 : List ZipRow :=
  [⟨"48505", "26049", "MI", none, 1⟩,
   ⟨"48505", "26125", "MI", some "11220", 1⟩]

/-! ## Python dictionaries keyed by ZIP -/
/-- Python dict assignment `d[k] = v`: overwriting an existing key keeps
its original position; a new key is appended (insertion order). -/
def dict_insert {β : Type} (m : List (String × β)) (k : String) (v : β) :
    List (String × β) :=
  if k ∈ m.map Prod.fst then
    m.map (fun e => if e.1 = k then (k, v) else e)
  else m ++ [(k, v)]

/-! ## BEA responses and the full-dataset pipeline -/
/-- One raw `DataValue` cell: the `"(NA)"` sentinel, a numeric string
(its parsed value), or a string on which `float()` raises `ValueError`. -/
inductive BeaVal where
  | na
  | num (q : ℚ)
  | bad
deriving DecidableEq, Repr

/-- One record of a BEA `Data` array (the fields the scripts read). -/
structure BeaRow where
  geoFips : String
  lineCode : String
  dataValue : BeaVal
deriving DecidableEq, Repr

/-- The `Results` object of a BEA payload: an explicit `Error` object, a
`Data` array, or neither key. -/
inductive BeaResults where
  | err (desc : String)
  | data (records : List BeaRow)
  | other
deriving DecidableEq, Repr

/-- A BEA response: either the `BEAAPI`/`Results` envelope is missing
entirely (unrecognized shape), or it carries a `Results` object. -/
inductive BeaResponse where
  | malformed
  | results (r : BeaResults)
deriving DecidableEq, Repr

/-- `fetch_bea_data` of `generate_full_dataset.py` (lines 38–57): an
explicit error payload raises, a missing `Data` key raises, a missing
envelope raises — and the surrounding `except` block catches each of
these, prints, and returns an *empty* DataFrame, so the caller keeps
going. -/
def fetch_bea_data : BeaResponse → List BeaRow
  | BeaResponse.results (BeaResults.data rs) => rs
  | _ => []

/-- `bea_request` of `build_cost_of_living_dataset.py` (lines 65–102): an
explicit error payload, a `Results` object without `Data`, and an
unrecognized response shape each raise `RuntimeError`; nothing catches it
inside `build_lookup`, so the run aborts (exit code 1) with no output
file.  Abortion is modelled by `Except.error`. -/
def bea_request : BeaResponse → Except String (List BeaRow)
  | BeaResponse.malformed => Except.error "Invalid BEA API response structure"
  | BeaResponse.results (BeaResults.err d) =>
      Except.error ("BEA API Error: " ++ d)
  | BeaResponse.results BeaResults.other =>
      Except.error "No data in BEA response"
  | BeaResponse.results (BeaResults.data rs) => Except.ok rs

/-- `load_rpp` (lines 105–125): MSA table then state table via
`bea_request`, concatenated; either failure propagates. -/
def load_rpp (msa state : BeaResponse) : Except String (List BeaRow) := do
  let m ← bea_request msa
  let s ← bea_request state
  pure (m ++ s)

/-- One `LineCode` dispatch of `process_rpp_data`: line 1 → all items,
2 → goods, 3 → rents/housing, 4 → other services; any other code leaves
the entry as it is (but the entry has still been created). -/
def set_component (lc : String) (q : ℚ) (g : GeoVal) : GeoVal :=
  if lc = "1" then { g with rpp_all := some q }
  else if lc = "2" then { g with rpp_goods := some q }
  else if lc = "3" then { g with rpp_housing := some q }
  else if lc = "4" then { g with rpp_other := some q }
  else g

/-- `rpp_lookup` update for one record: create the (empty) entry if the
geography is new, then set the addressed component. -/
def geo_update (acc : List (String × GeoVal)) (geo lc : String) (q : ℚ) :
    List (String × GeoVal) :=
  if geo ∈ acc.map Prod.fst then
    acc.map (fun e => if e.1 = geo then (geo, set_component lc q e.2) else e)
  else acc ++ [(geo, set_component lc q {})]

/-- One side (state or MSA) of `process_rpp_data` (lines 84–130): skip a
record whose value is the `"(NA)"` sentinel; a `float()` failure skips the
record; otherwise update the lookup under the zero-filled geography code
(`zfill` width 2 for states, 5 for MSAs). -/
def process_side (width : Nat) (rows : List BeaRow)
    (acc : List (String × GeoVal)) : List (String × GeoVal) :=
  rows.foldl (fun acc row =>
    let geo := zfill width row.geoFips
    if geo ≠ "" ∧ row.lineCode ≠ "" ∧ row.dataValue ≠ BeaVal.na then
      match row.dataValue with
      | BeaVal.num q => geo_update acc geo row.lineCode q
      | _ => acc
    else acc) acc

/-- `process_rpp_data` (lines 77–133): state records first (width 2),
then MSA records (width 5), into one shared lookup. -/
def process_rpp_data (stateRows msaRows : List BeaRow) :
    List (String × GeoVal) :=
  process_side 5 msaRows (process_side 2 stateRows [])

/-- `generate_comprehensive_dataset` (lines 135–301): build `rpp_lookup`
from the two fetched responses, de-duplicate the crosswalk, then resolve
every surviving row into `final_data` keyed by the zero-filled ZIP. -/
def generate_comprehensive_dataset (stateResp msaResp : BeaResponse)
    (xrows : List ZipRow) : List (String × ResolvedZip) :=
  (dedup_rows xrows).foldl
    (fun acc r =>
      dict_insert acc (zfill 5 r.zip)
        (resolve_zip
          (process_rpp_data (fetch_bea_data stateResp)
            (fetch_bea_data msaResp)) r).1)
    []

/-! ## The `build_lookup` join of build_cost_of_living_dataset.py -/
/-- A wide RPP row as the merges of `build_lookup` assume: one geography
code with the four component columns (each possibly `NaN`). -/
structure RppWide where
  geo : String
  rpp_all : Option ℚ
  rpp_housing : Option ℚ
  rpp_goods : Option ℚ
  rpp_other : Option ℚ
deriving DecidableEq, Repr

/-- Line 173: `rpp["geo"] = rpp["geo"].str.zfill(5)` — every geography
code, state codes included, is zero-filled to width 5 in place. -/
def rpp_zfill (t : List RppWide) : List RppWide :=
  t.map (fun g => { g with geo := zfill 5 g.geo })

/-- Line 184: `state_rpp = rpp[rpp["geo"].str.len() == 2]` — selected from
the already zero-filled table. -/
def bl_state_table (t : List RppWide) : List RppWide :=
  (rpp_zfill t).filter (fun g => g.geo.length = 2)

/-- The state-fallback merge for one crosswalk row (lines 180–189): match
the two-character state FIPS prefix of the county code against
`bl_state_table`. -/
def bl_state_fallback (t : List RppWide) (r : ZipRow) : Option RppWide :=
  (bl_state_table t).find? (fun g => g.geo = (zfill 5 r.county).take 2)

/-- One output row of `build_lookup` (columns of the final CSV); after
`dropna(subset=["rpp_all"])`, `rpp_all` is always present while the other
three components may still be missing. -/
structure ColRow where
  zip : String
  state : String
  county_fips : String
  cbsa_code : Option String
  rpp_all : ℚ
  rpp_housing : Option ℚ
  rpp_goods : Option ℚ
  rpp_other : Option ℚ
deriving DecidableEq, Repr

/-- The join-and-drop stage of `build_lookup` (lines 166–210): left-merge
the de-duplicated crosswalk against the zero-filled RPP table on CBSA
(`merge` of a `NaN` CBSA matches nothing; the RPP table is assumed keyed
uniquely per the GeoRecord invariant, so `find?` models the merge); a row
still missing `rpp_all` goes to the state-fallback merge — against the
provably empty `bl_state_table`, so it never resolves there; finally
`dropna(subset=["rpp_all"])` deletes every row without an `rpp_all`. -/
def build_lookup_join (t : List RppWide) (xrows : List ZipRow) :
    List ColRow :=
  (dedup_rows xrows).filterMap (fun r =>
    let merged : Option RppWide :=
      match r.cbsa with
      | some c => (rpp_zfill t).find? (fun g => g.geo = c)
      | none => none
    let final : Option RppWide :=
      match merged with
      | some g => if g.rpp_all.isSome then some g else bl_state_fallback t r
      | none => bl_state_fallback t r
    match final with
    | some g =>
      match g.rpp_all with
      | some a => some ⟨r.zip, r.state, r.county, r.cbsa, a,
          g.rpp_housing, g.rpp_goods, g.rpp_other⟩
      | none => none
    | none => none)

/-! ## csv_to_json: the rounding Dataset Writer -/
/-- Python `round(x, 2)` as used on the exact decimal data values: round
to the nearest hundredth, ties to even. -/
def round_half_even (q : ℚ) : ℤ :=
  if Int.fract q < 1/2 then ⌊q⌋
  else if (1 : ℚ)/2 < Int.fract q then ⌊q⌋ + 1
  else if ⌊q⌋ % 2 = 0 then ⌊q⌋ else ⌊q⌋ + 1

/-- The value `round(x, 2)` stores: an integer number of hundredths. -/
def round2 (q : ℚ) : ℚ := ((round_half_even (q * 100) : ℤ) : ℚ) / 100

/-- One row of `data/col_by_zip.csv` as `csv_to_json` consumes it, with
all four components present (a missing component would make `float()`
produce a non-JSON `NaN`, outside this data model). -/
structure CsvRow where
  zip : String
  state : String
  county_fips : String
  cbsa_code : Option String
  rpp_all : ℚ
  rpp_housing : ℚ
  rpp_goods : ℚ
  rpp_other : ℚ
deriving DecidableEq, Repr

/-- One serialized record of the structured lookup file.  After
`round(x, 2)` every numeric field is an integer number of hundredths; the
compact JSON encoding writes that decimal exactly and parsing reads it
back exactly, so the wire value is modelled as that integer. -/
structure WireRec where
  all100 : ℤ
  housing100 : ℤ
  goods100 : ℤ
  other100 : ℤ
  state : String
  cbsa_code : Option String
deriving DecidableEq, Repr

/-- Lines 24–33 of csv_to_json.py: one `zip_data` entry — four components
rounded to 2 decimals, state as a plain string, CBSA kept nullable. -/
def csv_record (r : CsvRow) : WireRec :=
  { all100 := round_half_even (r.rpp_all * 100)
    housing100 := round_half_even (r.rpp_housing * 100)
    goods100 := round_half_even (r.rpp_goods * 100)
    other100 := round_half_even (r.rpp_other * 100)
    state := r.state
    cbsa_code := r.cbsa_code }

/-- `csv_to_json` (lines 10–48): build the `zip_data` dictionary keyed by
the zero-filled ZIP, then dump it (the dump/parse pair is exact on these
wire records). -/
def csv_to_json (rows : List CsvRow) : List (String × WireRec) :=
  rows.foldl (fun acc r => dict_insert acc (zfill 5 r.zip) (csv_record r)) []

/-- Parsing the structured lookup file back: each wire integer becomes the
rational number of hundredths it denotes. -/
def parse_lookup (w : List (String × WireRec)) :
    List (String × ResolvedZip) :=
  w.map (fun e =>
    (e.1,
     { rpp_all := (e.2.all100 : ℚ) / 100
       rpp_housing := (e.2.housing100 : ℚ) / 100
       rpp_goods := (e.2.goods100 : ℚ) / 100
       rpp_other := (e.2.other100 : ℚ) / 100
       state := e.2.state
       cbsa_code := e.2.cbsa_code }))

/-- A one-row table with whole-number components for the C6 witness. -/
def csv_rows_mi : List CsvRow :=
  [⟨"48505", "MI", "26049", none, 90, 85, 93, 92⟩]

/-- An MSA response carrying an all-items value with three decimal places
for metro 12420. -/
def msa_resp_95125 : BeaResponse :=
  BeaResponse.results (BeaResults.data
    [⟨"12420", "1", BeaVal.num 95.125⟩])

/-- One `state_shards[state][zip_code] = data` step of
`create_state_shards` (lines 70–74): create the state's inner dictionary
if absent, then store the record under its ZIP.  The full dataset is a
dictionary, so a ZIP never repeats and the inner store is an append. -/
def shards_insert (shards : List (String × List (String × ResolvedZip)))
    (st : String) (e : String × ResolvedZip) :
    List (String × List (String × ResolvedZip)) :=
  if st ∈ shards.map Prod.fst then
    shards.map (fun s => if s.1 = st then (st, s.2 ++ [e]) else s)
  else shards ++ [(st, [e])]

/-- `create_state_shards` (lines 64–80): group every record of the full
dataset under its own `state` field (every record of the builders carries
the `state` key, so the `.get('state', 'XX')` default never fires). -/
def create_state_shards (full : List (String × ResolvedZip)) :
    List (String × List (String × ResolvedZip)) :=
  full.foldl (fun acc e => shards_insert acc e.2.state e) []

/-- The content of one state's shard (empty for an absent state). -/
def shard_of (shards : List (String × List (String × ResolvedZip)))
    (st : String) : List (String × ResolvedZip) :=
  (shards.lookup st).getD []

/-- Model of `str(c).startswith(p)`: prefix test on the characters. -/
def str_starts (p s : String) : Bool := p.data.isPrefixOf s.data

/-- The metro test of `create_core_dataset` (optimize_dataset.py lines
29–36): `if cbsa_code and str(cbsa_code).startswith('METRO_')` — its sole
criterion for picking metro-matched ZIPs. -/
def is_metro_cbsa (r : ResolvedZip) : Bool :=
  match r.cbsa_code with
  | none => false
  | some c => !(c = "") && str_starts "METRO_" c

/-- The hard-coded `major_city_prefixes` list (lines 39–44). -/
def major_city_prefixes : List String :=
  ["100", "200", "300", "400", "500", "600", "700", "800", "900",
   "850", "946", "902", "606", "775", "332", "802", "972", "785",
   "321", "480", "191", "804", "280", "535", "336", "870", "465"]

/-- `create_core_dataset` (lines 21–62): metro-matched ZIPs first (capped
at 1500), then up to ten ZIPs per hard-coded major-city prefix;
de-duplicate keeping first occurrences while the core holds fewer than
`max_size` ZIPs; finally look each chosen ZIP up in the full dataset. -/
def create_core_dataset (full : List (String × ResolvedZip))
    (max_size : Nat) : List (String × ResolvedZip) :=
  let metro_zips :=
    (full.filter (fun e => is_metro_cbsa e.2)).map Prod.fst
  let priority_zips :=
    metro_zips.take 1500 ++
      major_city_prefixes.flatMap (fun p =>
        ((full.map Prod.fst).filter (fun z => str_starts p z)).take 10)
  let core_zips :=
    (priority_zips.foldl
      (fun (acc : List String × List String) z =>
        if z ∉ acc.1 ∧ acc.2.length < max_size
        then (z :: acc.1, acc.2 ++ [z]) else acc)
      ([], [])).2
  core_zips.filterMap (fun z => (full.lookup z).map (fun r => (z, r)))

/-- The resolved Flint record used as a one-record full dataset. -/
def mi_resolved : ResolvedZip := ⟨89.5, 85.0, 93.0, 92.0, "MI", none⟩

/-! ## build_enhanced_dataset.py -/
/-- One value of the hard-coded `metro_rpp` table of
build_enhanced_dataset.py (all four components always present). -/
structure MetroRpp where
  rpp_all : ℚ
  rpp_housing : ℚ
  rpp_goods : ℚ
  rpp_other : ℚ
deriving DecidableEq, Repr

/-- The per-ZIP resolution of `build_comprehensive_dataset`
(build_enhanced_dataset.py lines 234–255), parameterized by the ZIP-keyed
metro table that `get_metro_rpp_data` builds: a metro hit copies the metro
components and stamps the synthetic CBSA code `"METRO_" + zip[:3]`; a
miss uses the state estimate (or the 100.0 national default) with a null
CBSA code. -/
def enhanced_resolve (metro : List (String × MetroRpp)) (z st : String) :
    ResolvedZip :=
  match metro.lookup z with
  | some m => ⟨m.rpp_all, m.rpp_housing, m.rpp_goods, m.rpp_other, st,
      some ("METRO_" ++ z.take 3)⟩
  | none =>
    match state_estimates.lookup st with
    | some e => ⟨e.rpp_all, e.rpp_housing, e.rpp_goods, e.rpp_other, st,
        none⟩
    | none => ⟨100, 100, 100, 100, st, none⟩

/-- `build_comprehensive_dataset` (lines 217–255): one `final_data` entry
per entry of the ZIP→state mapping (a dictionary, so ZIPs are distinct). -/
def build_comprehensive_dataset (zip_to_state : List (String × String))
    (metro : List (String × MetroRpp)) : List (String × ResolvedZip) :=
  zip_to_state.map (fun e => (e.1, enhanced_resolve metro e.1 e.2))

/-- The hard-coded San Francisco metro record. -/
def sf_metro : MetroRpp := ⟨172.3, 241.8, 119.4, 142.1⟩

/-- The record the enhanced build produces for ZIP 94102. -/
def sf_resolved : ResolvedZip :=
  ⟨172.3, 241.8, 119.4, 142.1, "CA", some "METRO_941"⟩

/-- C1: a metro match uses the metro geography's four components,
whatever else the table contains. -/
theorem resolve_zip_metro (geo : List (String × GeoVal)) (row : ZipRow)
    (c : String) (g : GeoVal) (a h gd o : ℚ)
    (hc : row.cbsa = some c) (hne : c ≠ "") (hg : geo.lookup c = some g)
    (ha : g.rpp_all = some a) (hh : g.rpp_housing = some h)
    (hgd : g.rpp_goods = some gd) (ho : g.rpp_other = some o) :
    resolve_zip geo row =
      ({ rpp_all := a, rpp_housing := h, rpp_goods := gd, rpp_other := o,
         state := row.state, cbsa_code := row.cbsa },
       Provenance.metro_matched) := by
  unfold resolve_zip metro_lookup
  rw [hc]
  simp [hne, hg, finish_row, ha, hh, hgd, ho, hc]

/-- Witness for C1 at the Austin scenario. -/
theorem resolve_zip_metro_witness :
    resolve_zip [("12420", ⟨some 95.8, some 102.1, some 92.4, some 97.2⟩)]
        row78701 =
      ({ rpp_all := 95.8, rpp_housing := 102.1, rpp_goods := 92.4,
         rpp_other := 97.2, state := "TX", cbsa_code := some "12420" },
       Provenance.metro_matched) :=
  resolve_zip_metro _ row78701 "12420"
    ⟨some 95.8, some 102.1, some 92.4, some 97.2⟩ 95.8 102.1 92.4 97.2 rfl
    (by decide) rfl rfl rfl rfl rfl

/-- C2 (amended, general part): when the metro tier fails and the
two-character prefix of the zero-filled county FIPS is a key of
`rpp_lookup`, the resolved record carries that geography's components and
the `matched_state` counter is incremented. -/
theorem resolve_zip_state (geo : List (String × GeoVal)) (row : ZipRow)
    (g : GeoVal) (a h gd o : ℚ)
    (hm : metro_lookup geo row.cbsa = none)
    (hg : geo.lookup ((zfill 5 row.county).take 2) = some g)
    (ha : g.rpp_all = some a) (hh : g.rpp_housing = some h)
    (hgd : g.rpp_goods = some gd) (ho : g.rpp_other = some o) :
    resolve_zip geo row =
      ({ rpp_all := a, rpp_housing := h, rpp_goods := gd, rpp_other := o,
         state := row.state, cbsa_code := row.cbsa },
       Provenance.state_matched) := by
  unfold resolve_zip
  rw [hm, hg]
  simp [finish_row, ha, hh, hgd, ho]

/-- Witness for the amended C2: the state geography code of ZIP 48505 is
"26" (first two characters of county FIPS 26049), and with the MI state
record keyed "26" the Flint row resolves at the state tier. -/
theorem resolve_zip_state_witness :
    resolve_zip [("26", mi_geo_val)] row48505 =
      ({ rpp_all := 89.5, rpp_housing := 85.0, rpp_goods := 93.0,
         rpp_other := 92.0, state := "MI", cbsa_code := none },
       Provenance.state_matched) :=
  resolve_zip_state _ row48505 mi_geo_val 89.5 85.0 93.0 92.0
    rfl rfl rfl rfl rfl rfl

/-- Counterexample to C2 as stated: with the Geo-Lookup Table keyed by the
state postal code "MI" (as in the spec's concrete scenario), the Flint row
does NOT resolve at the state tier: the lookup key tried by the code is
"26", so resolution falls through to the hard-coded `state_estimates`
table and the `estimated` counter is incremented.  The four components
coincide with the claimed ones only because `state_estimates["MI"]` holds
the same values. -/
theorem resolve_zip_mi_scenario_estimated :
    resolve_zip [("MI", mi_geo_val)] row48505 =
      ({ rpp_all := 89.5, rpp_housing := 85.0, rpp_goods := 93.0,
         rpp_other := 92.0, state := "MI", cbsa_code := none },
       Provenance.estimated) ∧
    Provenance.estimated ≠ Provenance.state_matched := by
  exact ⟨rfl, by decide⟩

/-- C3 (amended): when neither the metro tier nor the county-FIPS-prefix
state tier matches, resolution falls to the hard-coded `state_estimates`
table: a state present there yields its four estimate values, and only a
state absent from it yields all four components 100.0; the `estimated`
counter is incremented either way. -/
theorem resolve_zip_no_geo_match (geo : List (String × GeoVal))
    (row : ZipRow)
    (hm : metro_lookup geo row.cbsa = none)
    (hs : geo.lookup ((zfill 5 row.county).take 2) = none) :
    (state_estimates.lookup row.state = none →
      resolve_zip geo row =
        ({ rpp_all := 100, rpp_housing := 100, rpp_goods := 100,
           rpp_other := 100, state := row.state, cbsa_code := row.cbsa },
         Provenance.estimated)) ∧
    (∀ e : StateEst, state_estimates.lookup row.state = some e →
      resolve_zip geo row =
        ({ rpp_all := e.rpp_all, rpp_housing := e.rpp_housing,
           rpp_goods := e.rpp_goods, rpp_other := e.rpp_other,
           state := row.state, cbsa_code := row.cbsa },
         Provenance.estimated)) := by
  constructor
  · intro he
    unfold resolve_zip
    rw [hm, hs, he]
    simp [finish_row]
  · intro e he
    unfold resolve_zip
    rw [hm, hs, he]
    simp [finish_row, StateEst.toGeoVal]

/-- Witness for the amended C3, at a Puerto Rico row with an empty
Geo-Lookup Table: no tier matches and the state is not in
`state_estimates`, so all four components are 100.0. -/
theorem resolve_zip_no_geo_match_witness :
    resolve_zip [] row00601 =
      ({ rpp_all := 100, rpp_housing := 100, rpp_goods := 100,
         rpp_other := 100, state := "PR", cbsa_code := none },
       Provenance.estimated) :=
  (resolve_zip_no_geo_match [] row00601 rfl rfl).1 rfl

/-- Counterexample to C3 as stated: the Flint row matches neither a metro
nor a state geography in an empty Geo-Lookup Table, yet its resolved
`rpp_all` is 89.5, not 100.0 — the hard-coded `state_estimates` table is
an intermediate fallback tier between the state match and the national
default. -/
theorem resolve_zip_estimates_not_national :
    resolve_zip [] row48505 =
      ({ rpp_all := 89.5, rpp_housing := 85.0, rpp_goods := 93.0,
         rpp_other := 92.0, state := "MI", cbsa_code := none },
       Provenance.estimated) ∧
    (89.5 : ℚ) ≠ 100 := by
  exact ⟨rfl, by norm_num⟩

theorem mem_of_mem_first_by_zip {x : IRow} :
    ∀ {l : List IRow} {seen : List String},
      x ∈ first_by_zip seen l → x ∈ l := by
  intro l
  induction l with
  | nil => intro seen h; exact absurd h (List.not_mem_nil x)
  | cons a as ih =>
    intro seen h
    unfold first_by_zip at h
    by_cases hs : a.2.zip ∈ seen
    · rw [if_pos hs] at h
      exact List.mem_cons_of_mem a (ih h)
    · rw [if_neg hs] at h
      rcases List.mem_cons.mp h with h | h
      · exact h ▸ List.mem_cons_self a as
      · exact List.mem_cons_of_mem a (ih h)

theorem first_by_zip_filter (z : String) :
    ∀ (l : List IRow) (seen : List String),
      (first_by_zip seen l).filter (fun b => b.2.zip = z) =
        if z ∈ seen then []
        else ((l.filter (fun b => b.2.zip = z)).head?).toList := by
  intro l
  induction l with
  | nil =>
    intro seen
    by_cases hz : z ∈ seen <;> simp [first_by_zip, hz]
  | cons a as ih =>
    intro seen
    unfold first_by_zip
    by_cases hs : a.2.zip ∈ seen
    · rw [if_pos hs, ih seen]
      by_cases hz : z ∈ seen
      · simp [hz]
      · have hne : ¬ a.2.zip = z := fun h => hz (h ▸ hs)
        simp [hz, List.filter_cons, hne]
    · rw [if_neg hs]
      by_cases haz : a.2.zip = z
      · have hz : ¬ z ∈ seen := fun h => hs (haz ▸ h)
        rw [List.filter_cons_of_pos (by simpa using haz), ih _,
          if_pos (haz ▸ List.mem_cons_self a.2.zip seen),
          List.filter_cons_of_pos (by simpa using haz)]
        simp [hz]
      · rw [List.filter_cons_of_neg (by simpa using haz), ih _,
          List.filter_cons_of_neg (by simpa using haz)]
        have : (z ∈ a.2.zip :: seen) ↔ (z ∈ seen) := by
          constructor
          · intro h
            rcases List.mem_cons.mp h with h | h
            · exact absurd h.symm haz
            · exact h
          · exact List.mem_cons_of_mem _
        by_cases hz : z ∈ seen
        · rw [if_pos (this.mpr hz), if_pos hz]
        · rw [if_neg (fun h => hz (this.mp h)), if_neg hz]

theorem enum_pairwise_fst_lt (l : List ZipRow) :
    List.Pairwise (fun a b : IRow => a.1 < b.1) l.enum := by
  rw [List.enum_eq_zip_range]
  have hm : ((List.range l.length).zip l).map Prod.fst = List.range l.length :=
    List.map_fst_zip _ _ (by simp)
  have := List.pairwise_lt_range l.length
  rw [← hm] at this
  exact List.pairwise_map.mp this

theorem head_eq_of_min_fst {T : List IRow} {x : IRow}
    (hp : List.Pairwise (fun a b : IRow => a.1 < b.1) T)
    (hx : x ∈ T) (hmin : ∀ y ∈ T, x.1 ≤ y.1) : T.head? = some x := by
  cases T with
  | nil => exact absurd hx (List.not_mem_nil x)
  | cons t ts =>
    rcases List.mem_cons.mp hx with h | h
    · rw [h]
      rfl
    · have h1 : t.1 < x.1 := (List.pairwise_cons.mp hp).1 x h
      have h2 : x.1 ≤ t.1 := hmin t (List.mem_cons_self t ts)
      exact absurd h1 (Nat.not_lt.mpr h2)

theorem eq_of_mem_enum_fst_eq {l : List ZipRow} {a b : IRow}
    (ha : a ∈ l.enum) (hb : b ∈ l.enum) (hab : a.1 = b.1) : a = b := by
  obtain ⟨i, x⟩ := a
  obtain ⟨j, y⟩ := b
  have ha' := List.mk_mem_enum_iff_getElem?.mp ha
  have hb' := List.mk_mem_enum_iff_getElem?.mp hb
  simp only at hab
  subst hab
  rw [ha'] at hb'
  simp_all

/-- Characterization of one de-duplicated record (used by the claims
about de-duplication and key completeness). -/
theorem dedup_rows_spec_aux (rows : List ZipRow) (z : String)
    (hz : ∃ r ∈ rows, r.zip = z) :
    ∃ m f, (dedup_rows rows).filter (fun r => r.zip = z) = [m] ∧
      (∀ r ∈ rows, r.zip = z → r.ratio ≤ m.ratio) ∧
      (rows.filter (fun r => r.zip = z ∧ r.ratio = m.ratio)).head? = some f ∧
      m.zip = f.zip ∧ m.county = f.county ∧ m.state = f.state ∧
      m.ratio = f.ratio ∧
      m.cbsa = (((sort_rows rows).filter (fun b => b.2.zip = z)).filterMap
        (fun b => b.2.cbsa)).head? := by
  classical
  obtain ⟨r, hr, hrz⟩ := hz
  have hperm : (sort_rows rows).Perm rows.enum :=
    List.perm_insertionSort row_le rows.enum
  have hpair : (sort_rows rows).Pairwise row_le :=
    List.sorted_insertionSort row_le rows.enum
  have hgperm : ((sort_rows rows).filter (fun b => decide (b.2.zip = z))).Perm
      ((rows.enum).filter (fun b => decide (b.2.zip = z))) :=
    hperm.filter _
  obtain ⟨i, hi⟩ := List.mem_iff_getElem?.mp hr
  have hien : (i, r) ∈ rows.enum := List.mk_mem_enum_iff_getElem?.mpr hi
  have hienf : (i, r) ∈ (rows.enum).filter (fun b => decide (b.2.zip = z)) :=
    List.mem_filter.mpr ⟨hien, by simpa using hrz⟩
  have hmemg : (i, r) ∈
      (sort_rows rows).filter (fun b => decide (b.2.zip = z)) :=
    hgperm.mem_iff.mpr hienf
  obtain ⟨f₀, t, hft⟩ : ∃ f₀ t,
      (sort_rows rows).filter (fun b => decide (b.2.zip = z)) = f₀ :: t := by
    cases hg : (sort_rows rows).filter (fun b => decide (b.2.zip = z)) with
    | nil => rw [hg] at hmemg; exact absurd hmemg (List.not_mem_nil _)
    | cons f₀ t => exact ⟨f₀, t, rfl⟩
  have hgood : ∀ y ∈ (sort_rows rows).filter (fun b => decide (b.2.zip = z)),
      y = f₀ ∨ row_le f₀ y := by
    intro y hy
    rw [hft] at hy
    rcases List.mem_cons.mp hy with h | h
    · exact Or.inl h
    · have hp : ((sort_rows rows).filter
          (fun b => decide (b.2.zip = z))).Pairwise row_le :=
        hpair.sublist (List.filter_sublist _)
      rw [hft] at hp
      exact Or.inr ((List.pairwise_cons.mp hp).1 y h)
  have hzf₀ : f₀.2.zip = z := by
    have : f₀ ∈ (sort_rows rows).filter (fun b => decide (b.2.zip = z)) := by
      rw [hft]; exact List.mem_cons_self f₀ t
    simpa using List.of_mem_filter this
  -- the survivor in the de-duplicated output
  have hA : (dedup_rows rows).filter (fun r => r.zip = z) =
      [group_first (sort_rows rows) f₀] := by
    unfold dedup_rows
    rw [List.filter_map]
    have hcongr : List.filter
        ((fun r : ZipRow => decide (r.zip = z)) ∘ group_first (sort_rows rows))
        (first_by_zip [] (sort_rows rows)) =
        List.filter (fun b => decide (b.2.zip = z))
        (first_by_zip [] (sort_rows rows)) :=
      List.filter_congr (fun x _ => rfl)
    rw [hcongr, first_by_zip_filter z (sort_rows rows) [], if_neg
      (List.not_mem_nil z), hft]
    rfl
  refine ⟨group_first (sort_rows rows) f₀, f₀.2, hA, ?_, ?_, rfl, rfl, rfl,
    rfl, ?_⟩
  · -- maximum ratio
    intro r' hr' hr'z
    obtain ⟨j, hj⟩ := List.mem_iff_getElem?.mp hr'
    have hjen : (j, r') ∈ rows.enum := List.mk_mem_enum_iff_getElem?.mpr hj
    have hjg : (j, r') ∈
        (sort_rows rows).filter (fun b => decide (b.2.zip = z)) :=
      hgperm.mem_iff.mpr (List.mem_filter.mpr ⟨hjen, by simpa using hr'z⟩)
    rcases hgood _ hjg with h | h
    · have h1 : r' = f₀.2 := congrArg Prod.snd h
      have h2 : r'.ratio = f₀.2.ratio := congrArg ZipRow.ratio h1
      exact le_of_eq h2
    · rcases h with h | ⟨_, h | ⟨h, _⟩⟩
      · have hz2 : (j, r').2.zip = z := hr'z
        rw [hzf₀, hz2] at h
        exact absurd h (lt_irrefl _)
      · exact le_of_lt h
      · exact le_of_eq h
  · -- head of the maximum-ratio rows, in original order
    have hTpair : ((rows.enum).filter (fun b =>
        decide (b.2.zip = z ∧ b.2.ratio = f₀.2.ratio))).Pairwise
        (fun a b : IRow => a.1 < b.1) :=
      (enum_pairwise_fst_lt rows).sublist (List.filter_sublist _)
    have hf₀en : f₀ ∈ (rows.enum).filter (fun b => decide (b.2.zip = z)) :=
      hgperm.mem_iff.mp (by rw [hft]; exact List.mem_cons_self f₀ t)
    have hf₀T : f₀ ∈ (rows.enum).filter (fun b =>
        decide (b.2.zip = z ∧ b.2.ratio = f₀.2.ratio)) :=
      List.mem_filter.mpr ⟨(List.mem_filter.mp hf₀en).1, by simp [hzf₀]⟩
    have hmin : ∀ y ∈ (rows.enum).filter (fun b =>
        decide (b.2.zip = z ∧ b.2.ratio = f₀.2.ratio)), f₀.1 ≤ y.1 := by
      intro y hy
      obtain ⟨hyen, hyq⟩ := List.mem_filter.mp hy
      have hyq2 : y.2.zip = z ∧ y.2.ratio = f₀.2.ratio := by simpa using hyq
      have hyz : y.2.zip = z := hyq2.1
      have hyr : y.2.ratio = f₀.2.ratio := hyq2.2
      have hyg : y ∈ (sort_rows rows).filter
          (fun b => decide (b.2.zip = z)) :=
        hgperm.mem_iff.mpr (List.mem_filter.mpr ⟨hyen, by simpa using hyz⟩)
      rcases hgood _ hyg with h | h
      · exact le_of_eq (congrArg Prod.fst h.symm)
      · rcases h with h | ⟨_, h | ⟨_, h⟩⟩
        · exact absurd h (by rw [hzf₀, hyz]; exact lt_irrefl _)
        · exact absurd h (by rw [hyr]; exact lt_irrefl _)
        · exact h
    have hhead := head_eq_of_min_fst hTpair hf₀T hmin
    have hconv : rows.filter (fun r =>
        decide (r.zip = z ∧ r.ratio = f₀.2.ratio)) =
        ((rows.enum).filter (fun b =>
          decide (b.2.zip = z ∧ b.2.ratio = f₀.2.ratio))).map Prod.snd := by
      conv_lhs => rw [← List.enum_map_snd rows]
      rw [List.filter_map]
      rfl
    have hratio : (group_first (sort_rows rows) f₀).ratio = f₀.2.ratio := rfl
    rw [hratio, hconv, List.head?_map, hhead]
    rfl
  · -- the CBSA column
    have hcb : (group_first (sort_rows rows) f₀).cbsa =
        (((sort_rows rows).filter
          (fun b => decide (b.2.zip = f₀.2.zip))).filterMap
          (fun b => b.2.cbsa)).head? := rfl
    rw [hcb, hzf₀]

/-- C5 (amended): de-duplication keeps exactly one record per ZIP present
in the input; its ratio is the maximum ratio of that ZIP's rows; its ZIP,
county, state and ratio columns come from the first input row attaining
that maximum; its CBSA column is the first non-null CBSA of the ZIP's rows
in sorted (ratio-descending, input-stable) order — which need not belong
to the first maximum-ratio row. -/
theorem dedup_rows_spec (rows : List ZipRow) (z : String)
    (hz : ∃ r ∈ rows, r.zip = z) :
    ∃ m f, (dedup_rows rows).filter (fun r => r.zip = z) = [m] ∧
      (∀ r ∈ rows, r.zip = z → r.ratio ≤ m.ratio) ∧
      (rows.filter (fun r => r.zip = z ∧ r.ratio = m.ratio)).head? = some f ∧
      m.zip = f.zip ∧ m.county = f.county ∧ m.state = f.state ∧
      m.ratio = f.ratio ∧
      m.cbsa = (((sort_rows rows).filter (fun b => b.2.zip = z)).filterMap
        (fun b => b.2.cbsa)).head? :=
  dedup_rows_spec_aux rows z hz

/-- Witness for the amended C5 at `rows_48505`. -/
theorem dedup_rows_spec_witness :
    ∃ m f, (dedup_rows rows_48505).filter (fun r => r.zip = "48505") = [m] ∧
      (∀ r ∈ rows_48505, r.zip = "48505" → r.ratio ≤ m.ratio) ∧
      (rows_48505.filter
        (fun r => r.zip = "48505" ∧ r.ratio = m.ratio)).head? = some f ∧
      m.zip = f.zip ∧ m.county = f.county ∧ m.state = f.state ∧
      m.ratio = f.ratio ∧
      m.cbsa = (((sort_rows rows_48505).filter
        (fun b => b.2.zip = "48505")).filterMap (fun b => b.2.cbsa)).head? :=
  dedup_rows_spec rows_48505 "48505"
    ⟨⟨"48505", "26049", "MI", none, 1⟩, List.mem_cons_self _ _, rfl⟩

/-- Counterexample to C5 as stated: in `rows_48505` both rows tie at the
maximum ratio and the first of them (original order) has no CBSA code, yet
the surviving record is not that first row — `groupby('ZIP').first()`
takes the first *non-null* entry per column, so the survivor combines the
first row's columns with the second row's CBSA code. -/
theorem dedup_rows_tie_not_first_row :
    (rows_48505.filter
      (fun r => r.zip = "48505" ∧ r.ratio = 1)).head? =
        some ⟨"48505", "26049", "MI", none, 1⟩ ∧
    dedup_rows rows_48505 = [⟨"48505", "26049", "MI", some "11220", 1⟩] ∧
    (⟨"48505", "26049", "MI", some "11220", 1⟩ : ZipRow) ≠
      ⟨"48505", "26049", "MI", none, 1⟩ := by
  refine ⟨rfl, rfl, ?_⟩
  intro h
  exact Option.noConfusion (congrArg ZipRow.cbsa h)

theorem dict_insert_keys {β : Type} (m : List (String × β)) (k : String)
    (v : β) :
    (dict_insert m k v).map Prod.fst =
      if k ∈ m.map Prod.fst then m.map Prod.fst
      else m.map Prod.fst ++ [k] := by
  unfold dict_insert
  by_cases h : k ∈ m.map Prod.fst
  · rw [if_pos h, if_pos h, List.map_map]
    refine List.map_congr_left ?_
    intro e _
    by_cases he : e.1 = k
    · simp [he]
    · simp [he]
  · rw [if_neg h, if_neg h]
    simp

theorem dict_insert_mem_keys {β : Type} (m : List (String × β))
    (k key : String) (v : β) :
    k ∈ (dict_insert m key v).map Prod.fst ↔
      k ∈ m.map Prod.fst ∨ k = key := by
  rw [dict_insert_keys]
  by_cases h : key ∈ m.map Prod.fst
  · rw [if_pos h]
    constructor
    · exact Or.inl
    · rintro (hk | rfl)
      · exact hk
      · exact h
  · rw [if_neg h]
    simp

theorem dict_insert_nodup {β : Type} (m : List (String × β)) (k : String)
    (v : β) (h : (m.map Prod.fst).Nodup) :
    ((dict_insert m k v).map Prod.fst).Nodup := by
  rw [dict_insert_keys]
  by_cases hk : k ∈ m.map Prod.fst
  · rwa [if_pos hk]
  · rw [if_neg hk]
    rw [List.nodup_append]
    refine ⟨h, List.nodup_singleton k, ?_⟩
    intro x hx hx1
    rw [List.mem_singleton] at hx1
    exact hk (hx1 ▸ hx)

theorem fold_insert_mem_keys {α β : Type} (keyf : α → String)
    (valf : α → β) (k : String) :
    ∀ (l : List α) (acc : List (String × β)),
      k ∈ (l.foldl (fun acc e => dict_insert acc (keyf e) (valf e))
        acc).map Prod.fst ↔
        k ∈ acc.map Prod.fst ∨ ∃ e ∈ l, keyf e = k := by
  intro l
  induction l with
  | nil => intro acc; simp
  | cons a as ih =>
    intro acc
    rw [List.foldl_cons, ih]
    rw [dict_insert_mem_keys]
    constructor
    · rintro ((h | h) | h)
      · exact Or.inl h
      · exact Or.inr ⟨a, List.mem_cons_self a as, h.symm⟩
      · obtain ⟨e, he, hk⟩ := h
        exact Or.inr ⟨e, List.mem_cons_of_mem a he, hk⟩
    · rintro (h | ⟨e, he, hk⟩)
      · exact Or.inl (Or.inl h)
      · rcases List.mem_cons.mp he with rfl | he
        · exact Or.inl (Or.inr hk.symm)
        · exact Or.inr ⟨e, he, hk⟩

theorem fold_insert_nodup {α β : Type} (keyf : α → String) (valf : α → β) :
    ∀ (l : List α) (acc : List (String × β)),
      (acc.map Prod.fst).Nodup →
      ((l.foldl (fun acc e => dict_insert acc (keyf e) (valf e))
        acc).map Prod.fst).Nodup := by
  intro l
  induction l with
  | nil => intro acc h; simpa
  | cons a as ih =>
    intro acc h
    rw [List.foldl_cons]
    exact ih _ (dict_insert_nodup _ _ _ h)

theorem dedup_rows_zips (rows : List ZipRow) (z : String) :
    (∃ m ∈ dedup_rows rows, m.zip = z) ↔ ∃ r ∈ rows, r.zip = z := by
  constructor
  · rintro ⟨m, hm, hz⟩
    unfold dedup_rows at hm
    obtain ⟨a, ha, rfl⟩ := List.mem_map.mp hm
    have has : a ∈ sort_rows rows := mem_of_mem_first_by_zip ha
    have haen : a ∈ rows.enum :=
      (List.perm_insertionSort row_le rows.enum).mem_iff.mp has
    obtain ⟨i, x⟩ := a
    have := List.mk_mem_enum_iff_getElem?.mp haen
    exact ⟨x, List.getElem?_mem this, hz⟩
  · intro h
    obtain ⟨m, f, hfilter, -⟩ := dedup_rows_spec_aux rows z h
    have hm : m ∈ (dedup_rows rows).filter (fun r => r.zip = z) := by
      rw [hfilter]; exact List.mem_singleton.mpr rfl
    exact ⟨m, List.mem_of_mem_filter hm,
      by simpa using List.of_mem_filter hm⟩

/-- C4 (amended, positive part): in `generate_comprehensive_dataset` the
ZIP keys of `final_data` are exactly the zero-filled distinct ZIPs of the
crosswalk input — nothing is dropped, no key repeats — for every response
pair and crosswalk. -/
theorem generate_dataset_keys (stateResp msaResp : BeaResponse)
    (xrows : List ZipRow) :
    (∀ k, k ∈ (generate_comprehensive_dataset stateResp msaResp xrows).map
        Prod.fst ↔ ∃ r ∈ xrows, zfill 5 r.zip = k) ∧
    ((generate_comprehensive_dataset stateResp msaResp xrows).map
        Prod.fst).Nodup := by
  constructor
  · intro k
    unfold generate_comprehensive_dataset
    rw [fold_insert_mem_keys]
    simp only [List.map_nil, List.not_mem_nil, false_or]
    constructor
    · rintro ⟨m, hm, hk⟩
      obtain ⟨r, hr, hz⟩ := (dedup_rows_zips xrows m.zip).mp ⟨m, hm, rfl⟩
      exact ⟨r, hr, by rw [hz, hk]⟩
    · rintro ⟨r, hr, hk⟩
      obtain ⟨m, hm, hz⟩ := (dedup_rows_zips xrows r.zip).mpr ⟨r, hr, rfl⟩
      exact ⟨m, hm, by rw [hz, hk]⟩
  · exact fold_insert_nodup _ _ _ [] List.nodup_nil

theorem zfill_length (n : Nat) (s : String) :
    (zfill n s).length = max n s.length := by
  unfold zfill
  by_cases h : n ≤ s.length
  · rw [if_pos h, Nat.max_eq_right h]
  · rw [if_neg h, String.length_append]
    have : (String.mk (List.replicate (n - s.length) '0')).length =
        n - s.length := by
      show (List.replicate (n - s.length) '0').length = n - s.length
      rw [List.length_replicate]
    rw [this]
    omega

/-- The state-fallback table of `build_lookup` is always empty: after the
width-5 zero-fill no geography code has length 2. -/
theorem bl_state_table_empty (t : List RppWide) : bl_state_table t = [] := by
  unfold bl_state_table rpp_zfill
  rw [List.filter_map]
  have : ∀ g : RppWide,
      ((fun g : RppWide => decide (g.geo.length = 2)) ∘
        fun g : RppWide => { g with geo := zfill 5 g.geo }) g = false := by
    intro g
    simp only [Function.comp_apply, decide_eq_false_iff_not]
    rw [zfill_length]
    omega
  rw [List.filter_congr (fun g _ => this g)]
  simp

/-- Counterexample to C4 as stated: a crosswalk whose single ZIP 99999 has
no CBSA code, joined against an RPP table that even contains the matching
state record "26", produces an *empty* output — the ZIP is dropped by
`dropna` instead of falling through to any national default, so the output
key set does not equal the set of distinct input ZIPs. -/
theorem build_lookup_join_drops_zip :
    build_lookup_join [⟨"26", some 89.5, some 85.0, some 93.0, some 92.0⟩]
        [⟨"99999", "26049", "MI", none, 1⟩] = [] ∧
    ([(⟨"99999", "26049", "MI", none, 1⟩ : ZipRow)].map ZipRow.zip =
      ["99999"]) := ⟨rfl, rfl⟩

/-- C8 (amended): an upstream response that is not a `Data` payload — an
explicit error object, a `Results` without `Data`, or an unrecognized
shape — makes `load_rpp` of build_cost_of_living_dataset.py abort with an
error (so `build_lookup` terminates, exit 1, before writing any output),
while `fetch_bea_data` of generate_full_dataset.py catches the same
condition and returns the empty record list, letting its run continue. -/
theorem upstream_error_handling (r₁ r₂ : BeaResponse)
    (h : ∀ rows, r₁ ≠ BeaResponse.results (BeaResults.data rows)) :
    (∃ e, load_rpp r₁ r₂ = Except.error e) ∧ fetch_bea_data r₁ = [] := by
  cases r₁ with
  | malformed => exact ⟨⟨_, rfl⟩, rfl⟩
  | results r =>
    cases r with
    | err d => exact ⟨⟨_, rfl⟩, rfl⟩
    | data rs => exact absurd rfl (h rs)
    | other => exact ⟨⟨_, rfl⟩, rfl⟩

/-- Witness for the amended C8 at an explicit error payload. -/
theorem upstream_error_handling_witness :
    (∀ rows, BeaResponse.results (BeaResults.err "Invalid API key") ≠
      BeaResponse.results (BeaResults.data rows)) ∧
    (∃ e, load_rpp (BeaResponse.results (BeaResults.err "Invalid API key"))
      BeaResponse.malformed = Except.error e) ∧
    fetch_bea_data (BeaResponse.results (BeaResults.err "Invalid API key"))
      = [] :=
  ⟨fun _ h => by simp at h,
   (upstream_error_handling _ BeaResponse.malformed
     (fun _ h => by simp at h)).1,
   (upstream_error_handling _ BeaResponse.malformed
     (fun _ h => by simp at h)).2⟩

/-- Counterexample to C8 as stated: with both BEA responses being explicit
error payloads, `generate_comprehensive_dataset` neither aborts nor
withholds output — it produces a complete dataset from the hard-coded
estimates (here, the Flint row from `state_estimates["MI"]`). -/
theorem fetch_error_recovered :
    generate_comprehensive_dataset
        (BeaResponse.results (BeaResults.err "Invalid API key"))
        (BeaResponse.results (BeaResults.err "Invalid API key"))
        [row48505] =
      [("48505",
        { rpp_all := 89.5, rpp_housing := 85.0, rpp_goods := 93.0,
          rpp_other := 92.0, state := "MI", cbsa_code := none })] := rfl

theorem zfill_of_length (n : Nat) (s : String) (h : n ≤ s.length) :
    zfill n s = s := by
  unfold zfill
  rw [if_pos h]

theorem fold_insert_eq_append {α β : Type} (keyf : α → String)
    (valf : α → β) :
    ∀ (l : List α) (acc : List (String × β)),
      (l.map keyf).Nodup → (∀ e ∈ l, keyf e ∉ acc.map Prod.fst) →
      l.foldl (fun acc e => dict_insert acc (keyf e) (valf e)) acc =
        acc ++ l.map (fun e => (keyf e, valf e)) := by
  intro l
  induction l with
  | nil => intro acc _ _; simp
  | cons a as ih =>
    intro acc hnd hdisj
    rw [List.foldl_cons]
    have hka : keyf a ∉ acc.map Prod.fst :=
      hdisj a (List.mem_cons_self a as)
    have hins : dict_insert acc (keyf a) (valf a) = acc ++ [(keyf a, valf a)] := by
      unfold dict_insert
      rw [if_neg hka]
    rw [hins, ih (acc ++ [(keyf a, valf a)])
      ((List.nodup_cons.mp (by simpa using hnd)).2) ?_]
    · simp
    · intro e he
      rw [List.map_append]
      intro hmem
      rcases List.mem_append.mp hmem with h | h
      · exact hdisj e (List.mem_cons_of_mem a he) h
      · have : keyf e = keyf a := by simpa using h
        have hne : keyf a ∉ as.map keyf :=
          (List.nodup_cons.mp (by simpa using hnd)).1
        exact hne (this ▸ List.mem_map_of_mem keyf he)

/-- C6 (amended, positive part): for the csv_to_json writer, writing the
structured lookup file and parsing it back loses and gains no ZIP key and
yields every numeric field equal to the pre-write value rounded to 2
decimal places. -/
theorem csv_to_json_round_trip (rows : List CsvRow)
    (h5 : ∀ r ∈ rows, r.zip.length = 5)
    (hnd : (rows.map CsvRow.zip).Nodup) :
    parse_lookup (csv_to_json rows) =
      rows.map (fun r => (r.zip,
        ({ rpp_all := round2 r.rpp_all
           rpp_housing := round2 r.rpp_housing
           rpp_goods := round2 r.rpp_goods
           rpp_other := round2 r.rpp_other
           state := r.state
           cbsa_code := r.cbsa_code } : ResolvedZip))) ∧
    (parse_lookup (csv_to_json rows)).map Prod.fst = rows.map CsvRow.zip := by
  have hkeys : rows.map (fun r => zfill 5 r.zip) = rows.map CsvRow.zip :=
    List.map_congr_left (fun r hr => zfill_of_length 5 r.zip
      (le_of_eq (h5 r hr).symm))
  have hfold : csv_to_json rows =
      rows.map (fun r => (zfill 5 r.zip, csv_record r)) := by
    unfold csv_to_json
    rw [fold_insert_eq_append (fun r => zfill 5 r.zip) csv_record rows []
      (by rw [hkeys]; exact hnd) (by simp)]
    simp
  have hmain : parse_lookup (csv_to_json rows) =
      rows.map (fun r => (r.zip,
        ({ rpp_all := round2 r.rpp_all
           rpp_housing := round2 r.rpp_housing
           rpp_goods := round2 r.rpp_goods
           rpp_other := round2 r.rpp_other
           state := r.state
           cbsa_code := r.cbsa_code } : ResolvedZip))) := by
    rw [hfold]
    unfold parse_lookup
    rw [List.map_map]
    refine List.map_congr_left ?_
    intro r hr
    have hz : zfill 5 r.zip = r.zip :=
      zfill_of_length 5 r.zip (le_of_eq (h5 r hr).symm)
    simp only [Function.comp_apply]
    rw [Prod.ext_iff]
    exact ⟨hz, rfl⟩
  refine ⟨hmain, ?_⟩
  rw [hmain, List.map_map]
  rfl

/-- Witness for the amended C6 at `csv_rows_mi`. -/
theorem csv_to_json_round_trip_witness :
    parse_lookup (csv_to_json csv_rows_mi) =
      csv_rows_mi.map (fun r => (r.zip,
        ({ rpp_all := round2 r.rpp_all
           rpp_housing := round2 r.rpp_housing
           rpp_goods := round2 r.rpp_goods
           rpp_other := round2 r.rpp_other
           state := r.state
           cbsa_code := r.cbsa_code } : ResolvedZip))) ∧
    (parse_lookup (csv_to_json csv_rows_mi)).map Prod.fst =
      csv_rows_mi.map CsvRow.zip :=
  csv_to_json_round_trip csv_rows_mi
    (by intro r hr; rcases List.mem_singleton.mp hr with rfl; rfl)
    (List.nodup_singleton _)

/-- Counterexample to C6 as stated: `generate_comprehensive_dataset`
(also cited as a writer of the structured lookup file, lines 281–294)
serializes `final_data` with `json.dump` and *no* rounding, so the value
written — and read back, since JSON round-trips the decimal exactly — is
95.125, which does not equal any pre-write value rounded to 2 decimal
places (it is not an integer number of hundredths). -/
theorem generate_write_unrounded :
    generate_comprehensive_dataset (BeaResponse.results (BeaResults.data []))
        msa_resp_95125 [row78701] =
      [("78701",
        { rpp_all := 95.125, rpp_housing := 100, rpp_goods := 100,
          rpp_other := 100, state := "TX", cbsa_code := some "12420" })] ∧
    (∀ n : ℤ, (95.125 : ℚ) ≠ (n : ℚ) / 100) ∧
    (95.125 : ℚ) ≠ round2 95.125 := by
  have hnotcenti : ∀ n : ℤ, (95.125 : ℚ) ≠ (n : ℚ) / 100 := by
    intro n h
    have h1 : (n : ℚ) = 9512.5 := by
      have h0 : (n : ℚ) / 100 = 95.125 := h.symm
      rw [div_eq_iff (by norm_num : (100 : ℚ) ≠ 0)] at h0
      rw [h0]
      norm_num
    have h2 : ((2 * n : ℤ) : ℚ) = 19025 := by push_cast; linarith
    have h3 : (2 * n : ℤ) = 19025 := by exact_mod_cast h2
    omega
  exact ⟨rfl, hnotcenti, hnotcenti (round_half_even ((95.125 : ℚ) * 100))⟩

/-! ## optimize_dataset.py: state shards and the core subset -/
theorem lookup_eq_none_of_not_mem {β : Type} :
    ∀ (l : List (String × β)) (a : String), a ∉ l.map Prod.fst →
      l.lookup a = none := by
  intro l
  induction l with
  | nil => intro a _; rfl
  | cons e es ih =>
    intro a ha
    rw [List.map_cons, List.mem_cons] at ha
    push_neg at ha
    rw [List.lookup_cons]
    have : (a == e.1) = false := beq_eq_false_iff_ne.mpr ha.1
    rw [this]
    exact ih a ha.2

theorem mem_of_lookup_eq_some {β : Type} :
    ∀ (l : List (String × β)) (a : String) (b : β),
      l.lookup a = some b → (a, b) ∈ l := by
  intro l
  induction l with
  | nil => intro a b h; exact Option.noConfusion h
  | cons e es ih =>
    intro a b h
    rw [List.lookup_cons] at h
    by_cases hae : a = e.1
    · rw [show (a == e.1) = true from beq_iff_eq.mpr hae] at h
      simp only at h
      obtain rfl := Option.some.inj h
      exact (show (a, e.2) = e from Prod.ext hae rfl) ▸
        List.mem_cons_self e es
    · rw [show (a == e.1) = false from beq_eq_false_iff_ne.mpr hae] at h
      exact List.mem_cons_of_mem e (ih a b h)

theorem lookup_map_update_ne {st st' : String}
    (e : String × ResolvedZip) (hne : st ≠ st') :
    ∀ shards : List (String × List (String × ResolvedZip)),
      (shards.map (fun s => if s.1 = st' then (st', s.2 ++ [e]) else s)).lookup
        st = shards.lookup st := by
  intro shards
  induction shards with
  | nil => rfl
  | cons s ss ih =>
    rw [List.map_cons, List.lookup_cons]
    by_cases h : s.1 = st'
    · rw [if_pos h]
      rw [List.lookup_cons,
        show (st == s.1) = false from beq_eq_false_iff_ne.mpr (h ▸ hne),
        show (st == st') = false from beq_eq_false_iff_ne.mpr hne]
      exact ih
    · rw [if_neg h, List.lookup_cons]
      by_cases hs : st = s.1
      · rw [show (st == s.1) = true from beq_iff_eq.mpr hs]
      · rw [show (st == s.1) = false from beq_eq_false_iff_ne.mpr hs]
        exact ih

theorem exists_lookup_of_mem_keys {β : Type} :
    ∀ (l : List (String × β)) (a : String), a ∈ l.map Prod.fst →
      ∃ b, l.lookup a = some b := by
  intro l
  induction l with
  | nil => intro a h; exact absurd h (List.not_mem_nil a)
  | cons e es ih =>
    intro a h
    obtain ⟨k, v⟩ := e
    rw [List.lookup_cons]
    by_cases hak : a = k
    · rw [show (a == k) = true from beq_iff_eq.mpr hak]
      exact ⟨v, rfl⟩
    · rw [show (a == k) = false from beq_eq_false_iff_ne.mpr hak]
      rcases (by simpa using h : a = k ∨ ∃ x, (a, x) ∈ es) with hh | ⟨x, hx⟩
      · exact absurd hh hak
      · exact ih a (List.mem_map.mpr ⟨(a, x), hx, rfl⟩)

theorem lookup_map_update_eq {st' : String} (e : String × ResolvedZip) :
    ∀ shards : List (String × List (String × ResolvedZip)),
      st' ∈ shards.map Prod.fst →
      (shards.map (fun s => if s.1 = st' then (st', s.2 ++ [e]) else s)).lookup
        st' = (shards.lookup st').map (fun l => l ++ [e]) := by
  intro shards
  induction shards with
  | nil => intro h; exact absurd h (List.not_mem_nil st')
  | cons s ss ih =>
    intro hmem
    obtain ⟨k, v⟩ := s
    rw [List.map_cons]
    by_cases h : k = st'
    · rw [if_pos h]
      subst h
      rw [List.lookup_cons, List.lookup_cons,
        show (k == k) = true from beq_iff_eq.mpr rfl]
      rfl
    · rw [if_neg h]
      have hb : (st' == k) = false :=
        beq_eq_false_iff_ne.mpr (fun hh => h hh.symm)
      rw [List.lookup_cons, List.lookup_cons, hb]
      refine ih ?_
      rcases (by simpa using hmem : st' = k ∨ ∃ x, (st', x) ∈ ss) with
        hh | ⟨x, hx⟩
      · exact absurd hh.symm h
      · exact List.mem_map.mpr ⟨(st', x), hx, rfl⟩

theorem shards_insert_shard_of
    (shards : List (String × List (String × ResolvedZip)))
    (st st' : String) (e : String × ResolvedZip) :
    shard_of (shards_insert shards st' e) st =
      if st = st' then shard_of shards st ++ [e] else shard_of shards st := by
  unfold shards_insert shard_of
  by_cases hmem : st' ∈ shards.map Prod.fst
  · rw [if_pos hmem]
    by_cases hst : st = st'
    · subst hst
      rw [if_pos rfl, lookup_map_update_eq e shards hmem]
      obtain ⟨b, hb⟩ := exists_lookup_of_mem_keys shards st hmem
      rw [hb]
      rfl
    · rw [if_neg hst, lookup_map_update_ne e hst shards]
  · rw [if_neg hmem]
    rw [List.lookup_append]
    by_cases hst : st = st'
    · subst hst
      rw [if_pos rfl, lookup_eq_none_of_not_mem shards st hmem]
      rw [List.lookup_cons, show (st == st) = true from beq_iff_eq.mpr rfl]
      rfl
    · rw [if_neg hst, List.lookup_cons,
        show (st == st') = false from beq_eq_false_iff_ne.mpr hst]
      cases shards.lookup st <;> rfl

/-- The state shards are exactly the partition of the full dataset by the
records' own `state` fields, in order. -/
theorem create_state_shards_filter (full : List (String × ResolvedZip))
    (st : String) :
    shard_of (create_state_shards full) st =
      full.filter (fun e => e.2.state = st) := by
  unfold create_state_shards
  suffices h : ∀ (l : List (String × ResolvedZip))
      (acc : List (String × List (String × ResolvedZip))),
      shard_of (l.foldl (fun acc e => shards_insert acc e.2.state e) acc) st =
        shard_of acc st ++ l.filter (fun e => e.2.state = st) by
    rw [h full []]
    show [] ++ _ = _
    rw [List.nil_append]
  intro l
  induction l with
  | nil =>
    intro acc
    simp
  | cons e es ih =>
    intro acc
    rw [List.foldl_cons, ih, shards_insert_shard_of]
    by_cases hst : st = e.2.state
    · rw [if_pos hst, List.filter_cons_of_pos (by simpa using hst.symm),
        List.append_assoc, List.singleton_append]
    · rw [if_neg hst,
        List.filter_cons_of_neg (by simpa using fun hh => hst hh.symm)]

/-- C7: every record of the full dataset lands in exactly one state shard
— the one named by its own `state` field — and (a fortiori) the union of
the priority subset and the state shards covers every ZIP of the full
dataset. -/
theorem state_shards_partition (full : List (String × ResolvedZip))
    (z : String) (r : ResolvedZip)
    (hnd : (full.map Prod.fst).Nodup) (hmem : (z, r) ∈ full) :
    (z, r) ∈ shard_of (create_state_shards full) r.state ∧
    (∀ st r', (z, r') ∈ shard_of (create_state_shards full) st →
      st = r.state) ∧
    z ∈ (create_core_dataset full 2000).map Prod.fst ++
      (create_state_shards full).flatMap (fun s => s.2.map Prod.fst) := by
  have hself : (z, r) ∈ shard_of (create_state_shards full) r.state := by
    rw [create_state_shards_filter]
    exact List.mem_filter.mpr ⟨hmem, by simp⟩
  refine ⟨hself, ?_, ?_⟩
  · intro st r' hmem'
    rw [create_state_shards_filter] at hmem'
    obtain ⟨hin, hst⟩ := List.mem_filter.mp hmem'
    have : r' = r := by
      have h1 := List.mem_map_of_mem Prod.fst hin
      have h2 := List.mem_map_of_mem Prod.fst hmem
      exact congrArg Prod.snd
        ((List.inj_on_of_nodup_map hnd) hin hmem rfl)
    have hst2 : r'.state = st := by simpa using hst
    rw [← this]
    exact hst2.symm
  · refine List.mem_append.mpr (Or.inr ?_)
    rw [List.mem_flatMap]
    refine ⟨(r.state, shard_of (create_state_shards full) r.state), ?_, ?_⟩
    · -- the shard entry exists in the shard dictionary
      have hne : shard_of (create_state_shards full) r.state ≠ [] := by
        intro h
        rw [h] at hself
        exact List.not_mem_nil _ hself
      unfold shard_of at hne ⊢
      cases h : (create_state_shards full).lookup r.state with
      | none => rw [h] at hne; exact absurd rfl hne
      | some l => exact mem_of_lookup_eq_some _ _ _ h
    · exact List.mem_map_of_mem Prod.fst hself

/-- Witness for C7 at a one-record full dataset. -/
theorem state_shards_partition_witness :
    ("48505", mi_resolved) ∈
      shard_of (create_state_shards [("48505", mi_resolved)])
        mi_resolved.state ∧
    (∀ st r', ("48505", r') ∈
        shard_of (create_state_shards [("48505", mi_resolved)]) st →
      st = mi_resolved.state) ∧
    "48505" ∈
      (create_core_dataset [("48505", mi_resolved)] 2000).map Prod.fst ++
        (create_state_shards [("48505", mi_resolved)]).flatMap
          (fun s => s.2.map Prod.fst) :=
  state_shards_partition [("48505", mi_resolved)] "48505" mi_resolved
    (by simp) (List.mem_cons_self _ _)

/-- C10: in the enhanced build a record's `cbsa_code` is non-null exactly
when its ZIP hit the metro table; a non-null code is the synthetic
`"METRO_" + zip[:3]` (longer than 5 characters, so never a real 5-digit
CBSA code); and the optimizer's sole metro test
`str(cbsa_code).startswith('METRO_')` holds exactly for the metro-tier
records. -/
theorem enhanced_cbsa_characterization (zts : List (String × String))
    (metro : List (String × MetroRpp)) (z : String) (r : ResolvedZip)
    (hmem : (z, r) ∈ build_comprehensive_dataset zts metro) :
    (r.cbsa_code ≠ none ↔ (metro.lookup z).isSome) ∧
    (∀ c, r.cbsa_code = some c →
      c = "METRO_" ++ z.take 3 ∧ 5 < c.length ∧ is_metro_cbsa r = true) ∧
    (is_metro_cbsa r = true ↔ (metro.lookup z).isSome) := by
  obtain ⟨e, he, heq⟩ := List.mem_map.mp hmem
  obtain ⟨hz, hr⟩ := Prod.ext_iff.mp heq
  obtain ⟨z', st⟩ := e
  simp only at hz hr
  subst hz
  subst hr
  unfold enhanced_resolve
  cases hm : metro.lookup z' with
  | none =>
    cases state_estimates.lookup st with
    | none =>
      refine ⟨by simp [is_metro_cbsa], ?_, by simp [is_metro_cbsa]⟩
      intro c hc
      exact Option.noConfusion hc
    | some est =>
      refine ⟨by simp [is_metro_cbsa], ?_, by simp [is_metro_cbsa]⟩
      intro c hc
      exact Option.noConfusion hc
  | some m =>
    have hlen : ("METRO_" ++ z'.take 3).length = 6 + (z'.take 3).length := by
      rw [String.length_append]
      norm_num
      decide
    have hne2 : ("METRO_" ++ z'.take 3) ≠ "" := by
      intro h
      have h0 := congrArg String.length h
      rw [hlen] at h0
      have : ("" : String).length = 0 := by decide
      omega
    have hpre : str_starts "METRO_" ("METRO_" ++ z'.take 3) = true := by
      unfold str_starts
      rw [String.data_append]
      exact List.isPrefixOf_iff_prefix.mpr (List.prefix_append _ _)
    refine ⟨by simp, ?_, ?_⟩
    · intro c hc
      obtain rfl := Option.some.inj hc
      refine ⟨rfl, ?_, ?_⟩
      · rw [hlen]; omega
      · simp [is_metro_cbsa, hne2, hpre]
    · simp [is_metro_cbsa, hne2, hpre]

/-- Witness for C10 at the San Francisco ZIP 94102. -/
theorem enhanced_cbsa_characterization_witness :
    (sf_resolved.cbsa_code ≠ none ↔
      (([("94102", sf_metro)].lookup "94102").isSome)) ∧
    (∀ c, sf_resolved.cbsa_code = some c →
      c = "METRO_" ++ "94102".take 3 ∧ 5 < c.length ∧
      is_metro_cbsa sf_resolved = true) ∧
    (is_metro_cbsa sf_resolved = true ↔
      (([("94102", sf_metro)].lookup "94102").isSome)) :=
  enhanced_cbsa_characterization [("94102", "CA")] [("94102", sf_metro)]
    "94102" sf_resolved (List.mem_singleton.mpr rfl)
